import Mathlib

/-!
Shallow embedding of the motion_camera repository (Python) and proofs about it.

Modelled source files:
  * `synchronizer.py`   — `Synchronizer.wait_for_next_sampling`
  * `motion_handler.py` — `MotionHandler.mean_squared_error`, `handle_frame`,
    `detect_motion`, `handle_motion`, `recording_should_stop`, `store_video`
  * `video_recorder.py` — `VideoRecorder.start_recording`,
    `is_segment_duration_exceeded`

Times are modelled as exact rationals (the Python code uses floating-point
seconds); pixel values as naturals with the 8-bit semantics of the OpenCV /
NumPy operations the code calls (saturating subtraction, squaring modulo 256).
Side effects (sleeping, spawning a recording thread, writing frames) are made
explicit in the return values.
-/

namespace MotionCamera

/-! ## Synchronizer (synchronizer.py)

`wait_for_next_sampling(start_time)`:

    if (start_time is None):
        return time.time()
    elapsed_time = time.time() - start_time
    time_to_wait = Synchronizer.sampling_interval - elapsed_time
    if time_to_wait > 0:
        time.sleep(time_to_wait)
        return start_time + Synchronizer.sampling_interval
    multiplier = int(-time_to_wait / Synchronizer.sampling_interval) + 1
    return start_time + multiplier * Synchronizer.sampling_interval

The current time `time.time()` is passed explicitly as `now`; the sleep the
call performs (if any) is returned in the `slept` field. -/

/-- Python `int(q)` on a rational: truncation toward zero. -/
def py_int (q : ℚ) : ℤ :=
  if q < 0 then ⌈q⌉ else ⌊q⌋

/-- Result of one `wait_for_next_sampling` call: the returned tick and the
duration passed to `time.sleep` (`none` when no sleep happens). -/
structure SyncResult where
  tick : ℚ
  slept : Option ℚ
deriving DecidableEq, Repr

/-- `Synchronizer.set_rate(rate)` derives the sampling interval `1 / rate`. -/
def sampling_interval_of (rate : ℚ) : ℚ := 1 / rate

/-- `Synchronizer.wait_for_next_sampling`, with the process-wide
`sampling_interval` and the current time `now` passed explicitly. -/
def wait_for_next_sampling (sampling_interval : ℚ) (now : ℚ)
    (start_time : Option ℚ) : SyncResult :=
  match start_time with
  | none => ⟨now, none⟩
  | some st =>
    let elapsed_time := now - st
    let time_to_wait := sampling_interval - elapsed_time
    if time_to_wait > 0 then
      ⟨st + sampling_interval, some time_to_wait⟩
    else
      let multiplier : ℤ := py_int (-time_to_wait / sampling_interval) + 1
      ⟨st + (multiplier : ℚ) * sampling_interval, none⟩

/-! ## Mean squared error (motion_handler.py)

    def mean_squared_error(self, frame1, frame2):
        height, width = frame1.shape
        frame_size = float(height * width)
        diff = self.cv2.subtract(frame1, frame2)
        err = numpy.sum(diff ** 2)
        return err / frame_size

The frames reaching this code are grayscale `uint8` images (produced by
`cv2.cvtColor(..., COLOR_RGB2GRAY)`), stored here row-major as a pixel list
together with the shape. `cv2.subtract` on `uint8` saturates at 0, which on ℕ
is exactly truncated subtraction; `diff ** 2` keeps dtype `uint8`, so each
square wraps modulo 256; `numpy.sum` accumulates in a wide integer (exact). -/

/-- Grayscale frame: shape plus row-major pixel values (each `< 256`). -/
structure GrayFrame where
  height : ℕ
  width : ℕ
  pixels : List ℕ
deriving DecidableEq, Repr

/-- `cv2.subtract` on two `uint8` arrays: elementwise saturating subtraction. -/
def cv2_subtract (a b : List ℕ) : List ℕ :=
  List.zipWith (fun x y => x - y) a b

/-- NumPy `diff ** 2` on a `uint8` array: elementwise square, wrapping mod 256. -/
def np_square_u8 (d : List ℕ) : List ℕ :=
  d.map (fun x => x * x % 256)

/-- `MotionHandler.mean_squared_error` over exact rationals. -/
def mean_squared_error (frame1 frame2 : GrayFrame) : ℚ :=
  let frame_size : ℚ := (frame1.height * frame1.width : ℕ)
  ((np_square_u8 (cv2_subtract frame1.pixels frame2.pixels)).sum : ℚ) / frame_size

/-! ## Motion handler state machine (motion_handler.py)

The mutable fields of `MotionHandler` that the modelled methods touch, plus
the collaborating recorder flag `video_recorder.recording_active` read by
`handle_motion`. `frame_count` and `reference_frame` are initialized by
`capture_camera_feed` before the loop; the remaining fields by `__init__`. -/

/-- Mutable state of `MotionHandler` used by the modelled methods. -/
structure MotionState where
  storage_enabled : Bool
  terminate : Bool
  motion_detected : Bool
  last_motion_time : Option ℚ
  frame_count : ℕ
  reference_frame : Option GrayFrame
deriving DecidableEq, Repr

/-- State after `__init__` and the initialization at the top of
`capture_camera_feed` (`frame_count = 0`, `reference_frame = None`). -/
def initMotionState : MotionState :=
  { storage_enabled := false
    terminate := false
    motion_detected := false
    last_motion_time := none
    frame_count := 0
    reference_frame := none }

/-- `MotionHandler.detect_motion(frame1_gray, frame2_gray)`: returns without
touching state when either frame is `None`, otherwise sets `motion_detected`
from the mean squared error against the threshold. -/
def detect_motion (mse_motion_threshold : ℚ)
    (frame1_gray frame2_gray : Option GrayFrame) (s : MotionState) : MotionState :=
  match frame1_gray, frame2_gray with
  | some f1, some f2 =>
    { s with motion_detected := decide (mean_squared_error f1 f2 ≥ mse_motion_threshold) }
  | _, _ => s

/-- `MotionHandler.handle_motion()`. `now` is `time.time()`;
`recording_active` is the collaborating recorder's flag. The returned `Bool`
records whether a `store_video` thread was spawned. Displaying the alert has
no modelled state. -/
def handle_motion (now : ℚ) (recording_active : Bool) (s : MotionState) :
    MotionState × Bool :=
  if !s.motion_detected then (s, false)
  else
    let s1 := { s with last_motion_time := some now }
    let spawn := s1.storage_enabled && !recording_active
    ({ s1 with motion_detected := false }, spawn)

/-- `FRAME_SKIPS` in `MotionHandler.handle_frame`. -/
def FRAME_SKIPS : ℕ := 5

/-- `MotionHandler.handle_frame()`. The captured frame is abstract (`Frame`);
`cvtColor` abstracts `cv2.cvtColor(..., COLOR_RGB2GRAY)`. Returns the new
state and whether a recording thread was spawned by the inner
`handle_motion` call. -/
def handle_frame {Frame : Type} (mse_motion_threshold : ℚ)
    (cvtColor : Frame → GrayFrame) (now : ℚ) (recording_active : Bool)
    (frame : Frame) (s : MotionState) : MotionState × Bool :=
  let hm := handle_motion now recording_active s
  let s2 := { hm.1 with frame_count := hm.1.frame_count + 1 }
  if s2.frame_count = FRAME_SKIPS then
    let gray_frame := cvtColor frame
    let s3 := detect_motion mse_motion_threshold s2.reference_frame
      (some gray_frame) s2
    ({ s3 with reference_frame := some gray_frame, frame_count := 0 }, hm.2)
  else
    (s2, hm.2)

/-- One `handle_frame` call's inputs: the current time, the recorder's
`recording_active` flag, and the captured frame. -/
structure FrameInput (Frame : Type) where
  now : ℚ
  recording_active : Bool
  frame : Frame

/-- Iterated `handle_frame` over a list of inputs (the capture loop's calls),
keeping only the state. -/
def run_frames {Frame : Type} (mse_motion_threshold : ℚ)
    (cvtColor : Frame → GrayFrame) (inputs : List (FrameInput Frame))
    (s : MotionState) : MotionState :=
  inputs.foldl
    (fun st inp =>
      (handle_frame mse_motion_threshold cvtColor inp.now inp.recording_active
        inp.frame st).1)
    s

/-! ## Video recorder (video_recorder.py)

Mutable `VideoRecorder` fields touched by the modelled methods. The output
sink handle is abstracted as a number; whether the sink can be opened
(`VideoWriter(...).isOpened()`) is an input of `start_recording`. A raised
`SystemExit` is modelled as a `some errorMessage` in the second component;
the first component is the object state at the moment the exception
propagates (Python object state survives the exception). -/

/-- Mutable state of `VideoRecorder` used by the modelled methods. -/
structure VRState where
  recording_active : Bool
  out : Option ℕ
  start_time : Option ℚ
  frame_count : ℕ
  frame_start_time : Option ℚ
deriving DecidableEq, Repr

/-- `VideoRecorder.cleanup()` (the modelled fields). -/
def vr_cleanup (s : VRState) : VRState :=
  { s with frame_count := 0, frame_start_time := none }

/-- State after `VideoRecorder.__init__` (which sets the flags and calls
`cleanup`). -/
def initVRState : VRState :=
  vr_cleanup { recording_active := false, out := none, start_time := none
               frame_count := 0, frame_start_time := none }

/-- `VideoRecorder.create_video_file()`: returns the opened writer handle, or
the `SystemExit` message when the sink cannot be opened
(`not video_writer.isOpened()`). -/
def create_video_file (openedHandle : Option ℕ) : Except String ℕ :=
  match openedHandle with
  | some h => .ok h
  | none => .error "Cannot open video file."

/-- `VideoRecorder.start_recording()`:

    self.recording_active = True
    self.out = self.create_video_file()
    self.cleanup()
    self.start_time = time.time()

`openedHandle` is `some h` when the sink opens, `none` when it cannot be
opened; `now` is `time.time()`. On failure the raised `SystemExit` message is
returned together with the state left behind. -/
def start_recording (openedHandle : Option ℕ) (now : ℚ) (s : VRState) :
    VRState × Option String :=
  let s1 := { s with recording_active := true }
  match create_video_file openedHandle with
  | .error e => (s1, some e)
  | .ok h =>
    let s2 := vr_cleanup { s1 with out := some h }
    ({ s2 with start_time := some now }, none)

/-- `VideoRecorder.is_segment_duration_exceeded()`:

    if not self.recording_active or self.start_time is None:
        return False
    return time.time() - self.start_time > self.max_segment_duration
-/
def is_segment_duration_exceeded (max_segment_duration : ℚ) (now : ℚ)
    (s : VRState) : Bool :=
  if !s.recording_active || s.start_time = none then false
  else
    match s.start_time with
    | none => false
    | some st => decide (now - st > max_segment_duration)

/-! ## Recording-stop policy and recording task (motion_handler.py)

    def recording_should_stop(self):
        if time.time() - self.last_motion_time > self.motion_interval:
            return True
        if self.terminate:
            return True
        if self.video_recorder.is_segment_duration_exceeded():
            return True
        return False

When `last_motion_time` is `None` the subtraction raises a `TypeError`:
modelled as result `none`. The segment check is abstracted to the boolean it
returns. -/

/-- `MotionHandler.recording_should_stop()`; `none` models the `TypeError`
raised when `last_motion_time` is `None`. -/
def recording_should_stop (motion_interval : ℚ) (now : ℚ)
    (last_motion_time : Option ℚ) (terminate : Bool)
    (segment_exceeded : Bool) : Option Bool :=
  match last_motion_time with
  | none => none
  | some lm =>
    if now - lm > motion_interval then some true
    else if terminate then some true
    else if segment_exceeded then some true
    else some false

/-- Environment one `recording_should_stop` evaluation observes: current
time, `last_motion_time`, the `terminate` flag, and the recorder's segment
check result. -/
structure StopEnv where
  now : ℚ
  last_motion : ℚ
  terminate : Bool
  segment_exceeded : Bool
deriving DecidableEq, Repr

/-- `recording_should_stop` evaluated in a `StopEnv` (with a present
`last_motion_time`). -/
def stopCheck (motion_interval : ℚ) (e : StopEnv) : Option Bool :=
  recording_should_stop motion_interval e.now (some e.last_motion)
    e.terminate e.segment_exceeded

/-- Observable calls `store_video` makes on the recorder. -/
inductive RecEvent
  | start
  | write
  | stop
deriving DecidableEq, Repr

/-- The `while not self.recording_should_stop(): write_frame` loop of
`store_video`, driven by the successive environments it observes. Result
`none` models the loop crashing on an absent `last_motion_time`; the list
ends without a `stop` only when the supplied environment list runs out. -/
def store_video_loop (motion_interval : ℚ) :
    List StopEnv → Option (List RecEvent)
  | [] => some []
  | e :: rest =>
    match stopCheck motion_interval e with
    | none => none
    | some true => some [RecEvent.stop]
    | some false =>
      (store_video_loop motion_interval rest).map
        (fun t => RecEvent.write :: t)

/-- `MotionHandler.store_video()` as its trace of recorder calls:
`start_recording`, then the write loop, where `stop_recording` is emitted by
the loop when `recording_should_stop` first returns `True`. -/
def store_video_trace (motion_interval : ℚ) (envs : List StopEnv) :
    Option (List RecEvent) :=
  (store_video_loop motion_interval envs).map
    (fun t => RecEvent.start :: t)

/-! ## Helper lemmas -/

lemma cv2_subtract_self (p : List ℕ) :
    cv2_subtract p p = List.replicate p.length 0 := by
  induction p with
  | nil => rfl
  | cons x xs ih => simp [cv2_subtract, List.replicate_succ]

lemma cv2_subtract_map_add (d : ℕ) (p : List ℕ) :
    cv2_subtract (p.map (· + d)) p = List.replicate p.length d := by
  induction p with
  | nil => rfl
  | cons x xs ih => simpa [cv2_subtract, List.replicate_succ] using ih

lemma cv2_subtract_map_add_right (d : ℕ) (p : List ℕ) :
    cv2_subtract p (p.map (· + d)) = List.replicate p.length 0 := by
  induction p with
  | nil => rfl
  | cons x xs ih =>
    simpa [cv2_subtract, List.replicate_succ, Nat.sub_eq_zero_of_le] using ih

lemma np_square_u8_replicate (n d : ℕ) :
    np_square_u8 (List.replicate n d) = List.replicate n (d * d % 256) := by
  simp [np_square_u8, List.map_replicate]

lemma handle_motion_fst_fields (now : ℚ) (ra : Bool) (s : MotionState) :
    (handle_motion now ra s).1.frame_count = s.frame_count ∧
    (handle_motion now ra s).1.reference_frame = s.reference_frame := by
  cases hm : s.motion_detected <;> simp [handle_motion, hm]

lemma detect_motion_fields (th : ℚ) (f1 f2 : Option GrayFrame) (s : MotionState) :
    (detect_motion th f1 f2 s).frame_count = s.frame_count ∧
    (detect_motion th f1 f2 s).reference_frame = s.reference_frame := by
  cases f1 <;> cases f2 <;> simp [detect_motion]

lemma handle_frame_fields {Frame : Type} (th : ℚ) (cvt : Frame → GrayFrame)
    (now : ℚ) (ra : Bool) (f : Frame) (s : MotionState) :
    if s.frame_count + 1 = FRAME_SKIPS then
      (handle_frame th cvt now ra f s).1.frame_count = 0 ∧
      (handle_frame th cvt now ra f s).1.reference_frame = some (cvt f)
    else
      (handle_frame th cvt now ra f s).1.frame_count = s.frame_count + 1 ∧
      (handle_frame th cvt now ra f s).1.reference_frame = s.reference_frame := by
  obtain ⟨hc, hr⟩ := handle_motion_fst_fields now ra s
  by_cases h5 : s.frame_count + 1 = FRAME_SKIPS
  · rw [if_pos h5]
    simp [handle_frame, hc, hr, h5]
  · rw [if_neg h5]
    simp [handle_frame, hc, hr, h5]

lemma run_frames_frame_count {Frame : Type} (th : ℚ) (cvt : Frame → GrayFrame)
    (inputs : List (FrameInput Frame)) :
    ∀ s : MotionState, s.frame_count < FRAME_SKIPS →
    (run_frames th cvt inputs s).frame_count
      = (s.frame_count + inputs.length) % FRAME_SKIPS := by
  induction inputs with
  | nil =>
    intro s hs
    simp [run_frames, Nat.mod_eq_of_lt hs]
  | cons i rest ih =>
    intro s hs
    have hstep := handle_frame_fields th cvt i.now i.recording_active i.frame s
    have hfold : run_frames th cvt (i :: rest) s
        = run_frames th cvt rest
            (handle_frame th cvt i.now i.recording_active i.frame s).1 := by
      simp [run_frames]
    by_cases h5 : s.frame_count + 1 = FRAME_SKIPS
    · rw [if_pos h5] at hstep
      rw [hfold, ih _ (by rw [hstep.1]; decide), hstep.1]
      simp only [List.length_cons]
      unfold FRAME_SKIPS at h5 ⊢
      omega
    · rw [if_neg h5] at hstep
      have hlt : s.frame_count + 1 < FRAME_SKIPS := by
        unfold FRAME_SKIPS at h5 hs ⊢; omega
      rw [hfold, ih _ (by rw [hstep.1]; exact hlt), hstep.1]
      simp only [List.length_cons]
      unfold FRAME_SKIPS
      omega

lemma stopCheck_eq_true_iff (mi : ℚ) (e : StopEnv) :
    stopCheck mi e = some true ↔
      (e.now - e.last_motion > mi ∨ e.terminate = true ∨ e.segment_exceeded = true) := by
  unfold stopCheck recording_should_stop
  by_cases h1 : e.now - e.last_motion > mi
  · simp [h1]
  · by_cases h2 : e.terminate <;> by_cases h3 : e.segment_exceeded <;>
      simp [h1, h2, h3]

lemma store_video_loop_first_stop (mi : ℚ) :
    ∀ (envs : List StopEnv) (i : ℕ) (hi : i < envs.length),
    (∀ e ∈ envs, e.terminate = false ∧ e.segment_exceeded = false) →
    (∀ (j : ℕ) (hj : j < i), ¬ (envs[j].now - envs[j].last_motion > mi)) →
    envs[i].now - envs[i].last_motion > mi →
    store_video_loop mi envs
      = some (List.replicate i RecEvent.write ++ [RecEvent.stop]) := by
  intro envs
  induction envs with
  | nil =>
    intro i hi
    exact absurd hi (Nat.not_lt_zero i)
  | cons e rest ih =>
    intro i hi hquiet hbefore hat
    match i with
    | 0 =>
      have hstop : stopCheck mi e = some true := by
        have : e.now - e.last_motion > mi := by simpa using hat
        simp [stopCheck, recording_should_stop, this]
      simp [store_video_loop, hstop]
    | Nat.succ j =>
      have he := hquiet e (List.mem_cons_self e rest)
      have hne : ¬ (e.now - e.last_motion > mi) := by
        have h0 := hbefore 0 (Nat.succ_pos j)
        simpa using h0
      have hfalse : stopCheck mi e = some false := by
        simp [stopCheck, recording_should_stop, hne, he.1, he.2]
      have hj : j < rest.length := by simpa using hi
      have hrec := ih j hj
        (fun x hx => hquiet x (List.mem_cons_of_mem e hx))
        (fun j2 hj2 => by
          have := hbefore (j2 + 1) (Nat.succ_lt_succ hj2)
          simpa using this)
        (by simpa using hat)
      rw [store_video_loop, hfalse, hrec]
      simp [List.replicate_succ]

/-! ## Claim theorems -/

/-- C1: for every rate > 0 and every call to `wait_for_next_sampling` with a
non-absent previous tick whose overrun `(now - previous_tick) - 1/rate`
satisfies `k/rate ≤ overrun < (k+1)/rate` for an integer `k ≥ 1`, the
returned tick equals `previous_tick + (k+1)/rate` and no sleep is
performed. -/
theorem overrun_skips_to_future_tick (rate st now : ℚ) (k : ℤ)
    (hrate : 0 < rate) (hk : 1 ≤ k)
    (hlo : (k : ℚ) / rate ≤ now - st - 1 / rate)
    (hhi : now - st - 1 / rate < ((k : ℚ) + 1) / rate) :
    wait_for_next_sampling (sampling_interval_of rate) now (some st)
      = ⟨st + ((k : ℚ) + 1) / rate, none⟩ := by
  have hkQ : (1 : ℚ) ≤ (k : ℚ) := by exact_mod_cast hk
  have hov : 0 < now - st - 1 / rate :=
    lt_of_lt_of_le (div_pos (by linarith) hrate) hlo
  have hle : (k : ℚ) ≤ (now - st - 1 / rate) * rate := (div_le_iff₀ hrate).mp hlo
  have hlt : (now - st - 1 / rate) * rate < (k : ℚ) + 1 := (lt_div_iff₀ hrate).mp hhi
  have hq : -(1 / rate - (now - st)) / (1 / rate) = (now - st - 1 / rate) * rate := by
    rw [neg_sub, one_div, division_def, inv_inv]
  have hfloor : ⌊(now - st - 1 / rate) * rate⌋ = k :=
    Int.floor_eq_iff.mpr ⟨hle, hlt⟩
  have hq0 : ¬ ((now - st - 1 / rate) * rate < 0) := by
    push_neg
    linarith
  have hnot : ¬ (1 / rate - (now - st) > 0) := by linarith
  have hcast : (((k + 1 : ℤ)) : ℚ) * (1 / rate) = ((k : ℚ) + 1) / rate := by
    push_cast
    ring
  show wait_for_next_sampling (1 / rate) now (some st) = _
  simp only [wait_for_next_sampling]
  rw [if_neg hnot]
  unfold py_int
  rw [hq, if_neg hq0, hfloor, hcast]

/-- C1 witness: rate 2, previous tick 0, now 13/10; the overrun 8/10 lies in
`[1/2, 1)` (k = 1), the returned tick is `0 + 2/2 = 1` and no sleep occurs. -/
theorem overrun_skips_to_future_tick_witness :
    wait_for_next_sampling (sampling_interval_of 2) (13/10) (some 0)
      = ⟨0 + (((1 : ℤ) : ℚ) + 1) / 2, none⟩ :=
  overrun_skips_to_future_tick 2 0 (13/10) 1 (by norm_num) (by norm_num)
    (by norm_num) (by norm_num)

/-- C9: for any rate > 0, `wait_for_next_sampling` with an absent previous
tick returns the current time with no sleep; and with a previous tick whose
elapsed time is below the interval `1/rate`, it sleeps the remaining time
and returns exactly `previous_tick + 1/rate`. -/
theorem next_tick_absent_and_no_overrun (rate st now t : ℚ)
    (hrate : 0 < rate) (helapsed : now - st < 1 / rate) :
    wait_for_next_sampling (sampling_interval_of rate) t none = ⟨t, none⟩ ∧
    wait_for_next_sampling (sampling_interval_of rate) now (some st)
      = ⟨st + 1 / rate, some (1 / rate - (now - st))⟩ := by
  refine ⟨rfl, ?_⟩
  have hpos : 1 / rate - (now - st) > 0 := by linarith
  show wait_for_next_sampling (1 / rate) now (some st) = _
  simp only [wait_for_next_sampling]
  rw [if_pos hpos]

/-- C9 witness: rate 2; `next_tick(absent)` at time 7 returns 7 without
sleeping, and with previous tick 0 at time 3/10 it sleeps 1/5 and returns
1/2. -/
theorem next_tick_absent_and_no_overrun_witness :
    wait_for_next_sampling (sampling_interval_of 2) 7 none = ⟨7, none⟩ ∧
    wait_for_next_sampling (sampling_interval_of 2) (3/10) (some 0)
      = ⟨0 + 1/2, some (1/2 - (3/10 - 0))⟩ :=
  next_tick_absent_and_no_overrun 2 0 (3/10) 7 (by norm_num) (by norm_num)

/-- C2: when the output sink cannot be opened, `start_recording` raises the
fatal `SystemExit` (modelled as a returned error message) but leaves
`recording_active = true`: the flag is assigned before the open attempt and
is not rolled back when `create_video_file` raises. This contradicts the
claim (and the repository's own test
`test_video_recorder_cannot_open_file`), which expect
`recording_active = false` afterwards. -/
theorem start_recording_failure_keeps_recording_active :
    (start_recording none 0 initVRState).2 = some "Cannot open video file." ∧
    (start_recording none 0 initVRState).1.recording_active = true :=
  ⟨rfl, rfl⟩

/-- C3 counterexample: the 1×1 frames `[16]` and `[0]` differ by the constant
offset 16 in every pixel, yet the motion score is `16² % 256 = 0`, not
`16² = 256`: `cv2.subtract` keeps dtype `uint8` and NumPy squares the
difference in `uint8`, wrapping modulo 256. -/
theorem mean_squared_error_offset_counterexample :
    mean_squared_error ⟨1, 1, [16]⟩ ⟨1, 1, [0]⟩ ≠ (16 : ℚ) ^ 2 := by
  norm_num [mean_squared_error, cv2_subtract, np_square_u8]

/-- C3 (amended): for nonempty frames of the declared shape, the motion score
of two identical frames is 0; when every pixel of `frame1` exceeds the
corresponding pixel of `frame2` by a constant offset `d`, the score is
`d² mod 256` (hence `d²` exactly when `d ≤ 15`); and when every pixel of
`frame2` exceeds `frame1` by `d`, the score is 0, because `cv2.subtract`
saturates at 0 on `uint8` frames. -/
theorem mean_squared_error_identical_and_offset (h w d : ℕ) (p : List ℕ)
    (hlen : p.length = h * w) (hpos : 0 < h * w) :
    mean_squared_error ⟨h, w, p⟩ ⟨h, w, p⟩ = 0 ∧
    mean_squared_error ⟨h, w, p.map (· + d)⟩ ⟨h, w, p⟩ = ((d * d % 256 : ℕ) : ℚ) ∧
    mean_squared_error ⟨h, w, p⟩ ⟨h, w, p.map (· + d)⟩ = 0 := by
  have hne : ((h : ℚ) * (w : ℚ)) ≠ 0 := by
    have : ((h * w : ℕ) : ℚ) ≠ 0 := Nat.cast_ne_zero.mpr hpos.ne'
    push_cast at this
    exact this
  refine ⟨?_, ?_, ?_⟩
  · unfold mean_squared_error
    rw [cv2_subtract_self, np_square_u8_replicate]
    simp
  · unfold mean_squared_error
    rw [cv2_subtract_map_add, np_square_u8_replicate]
    simp only [List.sum_replicate, smul_eq_mul, hlen]
    push_cast
    rw [mul_comm, mul_div_assoc, div_self hne, mul_one]
  · unfold mean_squared_error
    rw [cv2_subtract_map_add_right, np_square_u8_replicate]
    simp

/-- C3 witness: 1×1 frames; `[5]` against itself scores 0, `[15]` against
`[5]` (offset 10) scores `100 = 10²`, and `[5]` against `[15]` scores 0. -/
theorem mean_squared_error_identical_and_offset_witness :
    mean_squared_error ⟨1, 1, [5]⟩ ⟨1, 1, [5]⟩ = 0 ∧
    mean_squared_error ⟨1, 1, List.map (· + 10) [5]⟩ ⟨1, 1, [5]⟩
      = ((10 * 10 % 256 : ℕ) : ℚ) ∧
    mean_squared_error ⟨1, 1, [5]⟩ ⟨1, 1, List.map (· + 10) [5]⟩ = 0 :=
  mean_squared_error_identical_and_offset 1 1 10 [5] (by decide) (by decide)

/-- C4: a recording session whose successive `recording_should_stop`
evaluations see `terminate` unset and the segment duration not exceeded, and
whose hold condition `now - last_motion_time > motion_interval` first holds
at the i-th evaluation, produces exactly the trace
`start_recording, i × write_frame, stop_recording`: the session is stopped
exactly once and `write_frame` is not called after the condition first
holds. In general `recording_should_stop` returns `True` exactly when the
hold interval is exceeded, the terminate flag is set, or the segment
duration is exceeded. -/
theorem recording_stop_policy (mi : ℚ) (envs : List StopEnv) (i : ℕ)
    (e0 : StopEnv) (hi : i < envs.length)
    (hquiet : ∀ e ∈ envs, e.terminate = false ∧ e.segment_exceeded = false)
    (hbefore : ∀ (j : ℕ) (hj : j < i),
      ¬ (envs[j].now - envs[j].last_motion > mi))
    (hat : envs[i].now - envs[i].last_motion > mi) :
    store_video_trace mi envs
      = some (RecEvent.start ::
          (List.replicate i RecEvent.write ++ [RecEvent.stop])) ∧
    (stopCheck mi e0 = some true ↔
      (e0.now - e0.last_motion > mi ∨ e0.terminate = true ∨
        e0.segment_exceeded = true)) := by
  constructor
  · rw [store_video_trace,
      store_video_loop_first_stop mi envs i hi hquiet hbefore hat]
    rfl
  · exact stopCheck_eq_true_iff mi e0

/-- C4 witness: with hold interval 10 and environments observed at times
0, 1, 12 (motion last seen at 0), the hold condition first holds at index 2;
the trace is `start, write, write, stop`, and the policy iff holds at the
environment `(now 0, last motion 0, terminate set, segment not exceeded)`. -/
theorem recording_stop_policy_witness :
    store_video_trace 10 [⟨0, 0, false, false⟩, ⟨1, 0, false, false⟩,
        ⟨12, 0, false, false⟩]
      = some (RecEvent.start ::
          (List.replicate 2 RecEvent.write ++ [RecEvent.stop])) ∧
    (stopCheck 10 ⟨0, 0, true, false⟩ = some true ↔
      ((0 : ℚ) - 0 > 10 ∨ true = true ∨ false = true)) :=
  recording_stop_policy 10
    [⟨0, 0, false, false⟩, ⟨1, 0, false, false⟩, ⟨12, 0, false, false⟩] 2
    ⟨0, 0, true, false⟩ (by decide)
    (by intro e he; fin_cases he <;> exact ⟨rfl, rfl⟩)
    (by intro j hj
        interval_cases j <;> simp)
    (by simp; norm_num)

/-- C5: starting from a state whose frame counter was just reset, the j-th
`handle_frame` call (1-based) replaces the comparison frame
`reference_frame` by the grayscale conversion of that call's captured frame
when j is a multiple of `FRAME_SKIPS` (= 5), and leaves it unchanged on
every other call. -/
theorem handle_frame_reference_update_period {Frame : Type} (th : ℚ)
    (cvt : Frame → GrayFrame) (inputs : List (FrameInput Frame))
    (s : MotionState) (inp : FrameInput Frame) (hreset : s.frame_count = 0) :
    ((inputs.length + 1) % FRAME_SKIPS = 0 →
      (handle_frame th cvt inp.now inp.recording_active inp.frame
        (run_frames th cvt inputs s)).1.reference_frame
        = some (cvt inp.frame)) ∧
    ((inputs.length + 1) % FRAME_SKIPS ≠ 0 →
      (handle_frame th cvt inp.now inp.recording_active inp.frame
        (run_frames th cvt inputs s)).1.reference_frame
        = (run_frames th cvt inputs s).reference_frame) := by
  have hcount := run_frames_frame_count th cvt inputs s
    (by rw [hreset]; decide)
  rw [hreset, Nat.zero_add] at hcount
  have hf := handle_frame_fields th cvt inp.now inp.recording_active inp.frame
    (run_frames th cvt inputs s)
  constructor
  · intro h5
    have hcond : (run_frames th cvt inputs s).frame_count + 1 = FRAME_SKIPS := by
      rw [hcount]
      unfold FRAME_SKIPS at h5 ⊢
      omega
    rw [if_pos hcond] at hf
    exact hf.2
  · intro h5
    have hcond : ¬ ((run_frames th cvt inputs s).frame_count + 1 = FRAME_SKIPS) := by
      rw [hcount]
      unfold FRAME_SKIPS at h5 ⊢
      omega
    rw [if_neg hcond] at hf
    exact hf.2

/-- C5 witness: after 4 calls from a reset counter, the 5th call installs the
converted captured frame as the comparison frame, and after those 5 calls
the 6th call leaves it unchanged. -/
theorem handle_frame_reference_update_period_witness :
    ((([⟨0, false, 1⟩, ⟨0, false, 2⟩, ⟨0, false, 3⟩, ⟨0, false, 4⟩] :
        List (FrameInput ℕ)).length + 1) % FRAME_SKIPS = 0 →
      (handle_frame 0 (fun n => ⟨1, 1, [n]⟩) (0 : ℚ) false 7
        (run_frames 0 (fun n => ⟨1, 1, [n]⟩)
          [⟨0, false, 1⟩, ⟨0, false, 2⟩, ⟨0, false, 3⟩, ⟨0, false, 4⟩]
          initMotionState)).1.reference_frame = some ⟨1, 1, [7]⟩) ∧
    ((([⟨0, false, 1⟩, ⟨0, false, 2⟩, ⟨0, false, 3⟩, ⟨0, false, 4⟩] :
        List (FrameInput ℕ)).length + 1) % FRAME_SKIPS ≠ 0 →
      (handle_frame 0 (fun n => ⟨1, 1, [n]⟩) (0 : ℚ) false 7
        (run_frames 0 (fun n => ⟨1, 1, [n]⟩)
          [⟨0, false, 1⟩, ⟨0, false, 2⟩, ⟨0, false, 3⟩, ⟨0, false, 4⟩]
          initMotionState)).1.reference_frame
        = (run_frames 0 (fun n => ⟨1, 1, [n]⟩)
          [⟨0, false, 1⟩, ⟨0, false, 2⟩, ⟨0, false, 3⟩, ⟨0, false, 4⟩]
          initMotionState).reference_frame) :=
  handle_frame_reference_update_period 0 (fun n => ⟨1, 1, [n]⟩)
    [⟨0, false, 1⟩, ⟨0, false, 2⟩, ⟨0, false, 3⟩, ⟨0, false, 4⟩]
    initMotionState ⟨0, false, 7⟩ rfl

/-- C6: on the very first comparison frame — the reference frame is absent —
`detect_motion` returns without touching the state, so `motion_detected`
stays `false` when it was `false` before the call. -/
theorem detect_motion_first_frame_no_motion (th : ℚ) (f2 : Option GrayFrame)
    (s : MotionState) (h : s.motion_detected = false) :
    detect_motion th none f2 s = s ∧
    (detect_motion th none f2 s).motion_detected = false := by
  have heq : detect_motion th none f2 s = s := by
    cases f2 <;> rfl
  exact ⟨heq, heq ▸ h⟩

/-- C6 witness: the initial state (no motion yet, no reference frame) is
unchanged by `detect_motion` and still reports no motion. -/
theorem detect_motion_first_frame_no_motion_witness :
    detect_motion 0 none (some ⟨1, 1, [3]⟩) initMotionState = initMotionState ∧
    (detect_motion 0 none (some ⟨1, 1, [3]⟩)
      initMotionState).motion_detected = false :=
  detect_motion_first_frame_no_motion 0 (some ⟨1, 1, [3]⟩) initMotionState rfl

/-- C7: `is_segment_duration_exceeded` is `false` on the freshly initialized
recorder (before any `start_recording`), and in general it returns `true`
exactly when the recorder is actively recording with a set start time `t`
and `now - t > max_segment_duration`; in particular it is `false` whenever
not recording. -/
theorem is_segment_duration_exceeded_policy (maxd now : ℚ) (s : VRState) :
    is_segment_duration_exceeded maxd now initVRState = false ∧
    (is_segment_duration_exceeded maxd now s = true ↔
      (s.recording_active = true ∧
        ∃ t, s.start_time = some t ∧ now - t > maxd)) := by
  constructor
  · rfl
  · unfold is_segment_duration_exceeded
    cases hra : s.recording_active <;> cases hst : s.start_time <;>
      simp [hra, hst]

/-- C8: `handle_motion` spawns a recording task exactly when motion was
detected, storage is enabled, and no recording is active; in particular when
a recording is already active no second task is started (and the model
returns normally: the attempt is not surfaced as an error). -/
theorem handle_motion_no_duplicate_recording (now : ℚ) (ra : Bool)
    (s : MotionState) :
    ((handle_motion now ra s).2 = true ↔
      (s.motion_detected = true ∧ s.storage_enabled = true ∧ ra = false)) ∧
    (handle_motion now true s).2 = false := by
  constructor
  · cases hm : s.motion_detected <;> simp [handle_motion, hm]
  · cases hm : s.motion_detected <;> simp [handle_motion, hm]

/-- C10: whenever `handle_motion` spawns the recording task, the state it
leaves behind has `last_motion_time = some now` — the timestamp is stamped
before the spawn — so `store_video`'s stop check never sees an absent
timestamp; while on the initial state (no motion ever handled)
`last_motion_time` is absent and `recording_should_stop` would fail on it
(the `TypeError` of `now - None`, modelled as result `none`). -/
theorem store_video_sees_motion_timestamp (now mi now2 : ℚ) (ra : Bool)
    (s : MotionState) (t sx : Bool)
    (hspawn : (handle_motion now ra s).2 = true) :
    (handle_motion now ra s).1.last_motion_time = some now ∧
    initMotionState.last_motion_time = none ∧
    recording_should_stop mi now2 none t sx = none := by
  refine ⟨?_, rfl, rfl⟩
  cases hm : s.motion_detected
  · rw [handle_motion] at hspawn
    simp [hm] at hspawn
  · simp [handle_motion, hm]

/-- C10 witness: a state with detected motion, storage enabled and no active
recording spawns the task and carries `last_motion_time = some 3`; the
initial state has no timestamp and the stop check on an absent timestamp
fails. -/
theorem store_video_sees_motion_timestamp_witness :
    (handle_motion 3 false
      { initMotionState with
        motion_detected := true
        storage_enabled := true }).1.last_motion_time = some 3 ∧
    initMotionState.last_motion_time = none ∧
    recording_should_stop 10 5 none false false = none :=
  store_video_sees_motion_timestamp 3 10 5 false
    { initMotionState with motion_detected := true, storage_enabled := true }
    false false rfl

end MotionCamera
